import Mathlib

/-!
Shallow embedding of `src/main.py` (FastAPI + SQLAlchemy service "VR API").

Modelling conventions:
* UUIDs and timestamps are modelled by a single monotone counter `DB.tick`:
  every freshly inserted row receives the current tick as its id and as its
  `created_at` timestamp, and the tick is bumped.  This matches the source,
  where `uuid.uuid4()` yields fresh ids and `datetime.utcnow()` yields
  (practically) strictly increasing timestamps.
* The relational tables (`users`, `zones`, `collectibles`, `collections`,
  `worldmaps`) are lists of rows; the unique constraint
  `uq_user_collectible_once` on `(user_id, collectible_id)` is modelled by the
  explicit membership test that decides whether the insert in `collect`
  raises `IntegrityError` (→ rollback → HTTP 409).
* Mutating endpoints return `(result, newState)`; an error result is paired
  with the unchanged state (the session is rolled back / never committed).
* HTTP status codes are recovered from the error value via `Err.status`.
* `float` values (`matrix` entries, the coordinates sent to `/zones/auto`)
  are modelled as `Int`/`Rat`; the source never computes with them (the
  matrix is stored and echoed verbatim, the coordinates are ignored), only
  the arity of `matrix` is ever inspected.
-/

set_option linter.unusedVariables false

namespace VR

/-- Python's `str.lower()` (all strings involved are ASCII). -/
def strLower (s : String) : String := String.mk (s.toList.map Char.toLower)

/-- Table `users` (class `User`, src/main.py:52-63).  `is_guest` is stored as
1/0 in the source and used as a boolean. -/
structure User where
  id : Nat
  device_id : String
  name : String
  email : Option String
  is_guest : Bool
  created_at : Nat
  updated_at : Nat
deriving DecidableEq, Repr

/-- Table `zones` (class `Zone`, src/main.py:66-75). -/
structure Zone where
  id : Nat
  name : String
  description : Option String
deriving DecidableEq, Repr

/-- Table `collectibles` (class `Collectible`, src/main.py:78-105).  The
`matrix` column is a JSON array of 16 floats; entries are modelled as `Int`
since the source only ever stores, echoes and counts them. -/
structure Collectible where
  id : Nat
  type : String
  points : Int
  matrix : List Int
  zone_id : Nat
  world_map_id : Option String
  created_at : Nat
deriving DecidableEq, Repr

/-- Table `collections` (class `Collection`, src/main.py:108-140), carrying
the unique constraint `uq_user_collectible_once` on
`(user_id, collectible_id)`. -/
structure Collection where
  id : Nat
  user_id : Nat
  collectible_id : Nat
  zone_id : Nat
  awarded_points : Int
  collected_at : Nat
deriving DecidableEq, Repr

/-- Table `worldmaps` (class `WorldMap`, src/main.py:143-157).  `data` is a
BYTEA column: a list of bytes (each `< 256`). -/
structure WorldMap where
  id : Nat
  zone_id : Nat
  name : String
  data : List Nat
  created_at : Nat
deriving DecidableEq, Repr

/-- The whole database, plus the id/clock counter `tick`. -/
structure DB where
  users : List User
  zones : List Zone
  collectibles : List Collectible
  collections : List Collection
  worldmaps : List WorldMap
  tick : Nat
deriving DecidableEq, Repr

/-- The `HTTPException`s raised by the handlers in src/main.py. -/
inductive Err where
  | userNotFound
  | collectibleNotFound
  | zoneNotFound
  | alreadyCollected
  | badMatrix
  | badBase64
  | noWorldmap
deriving DecidableEq, Repr

/-- The `status_code` each `HTTPException` carries in src/main.py. -/
def Err.status : Err → Nat
  | .userNotFound => 404
  | .collectibleNotFound => 404
  | .zoneNotFound => 404
  | .alreadyCollected => 409
  | .badMatrix => 400
  | .badBase64 => 400
  | .noWorldmap => 404

deriving instance DecidableEq for Except

/-- Response schema `RegisterRes` (src/main.py:166-170). -/
structure RegisterRes where
  userId : String
  name : String
  isGuest : Bool
  points : Int
deriving DecidableEq, Repr

/-- Request schema `CollectibleCreate` (src/main.py:180-184). -/
structure CollectibleCreate where
  type : String
  points : Int
  matrix : List Int
  worldMapId : Option String
deriving DecidableEq, Repr

/-- Response schema `CollectibleDTO` (src/main.py:186-191). -/
structure CollectibleDTO where
  id : String
  type : String
  points : Int
  matrix : List Int
  worldMapId : Option String
deriving DecidableEq, Repr

/-- Response schema `LeaderboardEntry` (src/main.py:193-197). -/
structure LeaderboardEntry where
  userId : String
  name : String
  isGuest : Bool
  points : Int
deriving DecidableEq, Repr

/-- Response of `POST /zones/auto` (src/main.py:357-360). -/
structure AutoZoneRes where
  zoneId : String
  joinCode : String
deriving DecidableEq, Repr

/-- Endpoint `POST /users/register` (src/main.py:279-288): look the user up by
`device_id`; create a fresh guest user when absent.  The response always
carries `points=0` (the literal in line 288). -/
def register (db : DB) (deviceId : String) : RegisterRes × DB :=
  match db.users.find? (fun u => u.device_id == deviceId) with
  | some u => (⟨toString u.id, u.name, u.is_guest, 0⟩, db)
  | none =>
    (⟨toString db.tick, "Guest", true, 0⟩,
     { db with
        users := db.users ++ [⟨db.tick, deviceId, "Guest", none, true, db.tick, db.tick⟩],
        tick := db.tick + 1 })

/-- Endpoint `POST /users/claim` (src/main.py:290-302): 404 when the user id is
unknown; otherwise overwrite `name`/`email`, clear the guest flag and bump
`updated_at`. -/
def claim (db : DB) (userId : Nat) (name email : String) : Except Err Unit × DB :=
  match db.users.find? (fun u => u.id == userId) with
  | none => (.error .userNotFound, db)
  | some _ =>
    (.ok (),
     { db with
        users := db.users.map (fun v =>
          if v.id == userId then
            { v with name := name, email := some email, is_guest := false,
                     updated_at := db.tick }
          else v),
        tick := db.tick + 1 })

/-- The SQL aggregate in `user_points` (src/main.py:315-322):
`SELECT COALESCE(SUM(awarded_points), 0) FROM collections
 WHERE user_id = uid AND zone_id = zid`. -/
def zonePoints (db : DB) (uid zid : Nat) : Int :=
  ((db.collections.filter (fun c => c.user_id == uid && c.zone_id == zid)).map
    (fun c => c.awarded_points)).sum

/-- The same aggregate without the zone filter (the `zoneId`-less branch of
`user_score_by_device`, src/main.py:336-340). -/
def totalPoints (db : DB) (uid : Nat) : Int :=
  ((db.collections.filter (fun c => c.user_id == uid)).map
    (fun c => c.awarded_points)).sum

/-- Endpoint `GET /users/.../points?zoneId=` (src/main.py:304-324). -/
def user_points (db : DB) (uid zid : Nat) : Except Err Int :=
  match db.users.find? (fun u => u.id == uid) with
  | none => .error .userNotFound
  | some _ => .ok (zonePoints db uid zid)

/-- Endpoint `POST /zones/auto` (src/main.py:357-360).  The handler ignores the
payload entirely and returns the hard-coded dummy response
`{"zoneId": "", "joinCode": "0000"}`; no zone is read or created.
Coordinates are modelled as `Rat` (they are never inspected). -/
def auto_zone (db : DB) (payload : List (String × Rat)) : AutoZoneRes × DB :=
  (⟨"", "0000"⟩, db)

/-- Endpoint `GET /zones/.../collectibles` (src/main.py:365-383): all
collectibles of the zone, optionally filtered by `world_map_id` (Python's
`if worldMapId:` treats the empty string like `None`), ordered by
`created_at` descending. -/
def list_collectibles (db : DB) (zone_id : Nat) (worldMapId : Option String) :
    List CollectibleDTO :=
  let q := db.collectibles.filter (fun x => x.zone_id == zone_id)
  let q2 := match worldMapId with
    | some w => if w == "" then q else q.filter (fun x => x.world_map_id == some w)
    | none => q
  (List.insertionSort (fun a b => b.created_at ≤ a.created_at) q2).map
    (fun x => ⟨toString x.id, x.type, x.points, x.matrix, x.world_map_id⟩)

/-- Endpoint `POST /zones/.../collectibles` (src/main.py:385-413): reject a
matrix that is not exactly 16 entries with HTTP 400, 404 on an unknown zone,
otherwise insert the row and echo it.  `type` is persisted verbatim — the
handler never checks it. -/
def create_collectible (db : DB) (zone_id : Nat) (payload : CollectibleCreate) :
    Except Err CollectibleDTO × DB :=
  if payload.matrix.length ≠ 16 then (.error .badMatrix, db)
  else
    match db.zones.find? (fun z => z.id == zone_id) with
    | none => (.error .zoneNotFound, db)
    | some _ =>
      (.ok ⟨toString db.tick, payload.type, payload.points, payload.matrix, payload.worldMapId⟩,
       { db with
          collectibles := db.collectibles ++
            [⟨db.tick, payload.type, payload.points, payload.matrix, zone_id,
              payload.worldMapId, db.tick⟩],
          tick := db.tick + 1 })

/-- Endpoint `POST /collectibles/.../collect` (src/main.py:418-446):
404 on unknown user or collectible; insert a `Collection` row carrying the
collectible's points.  A pre-existing row for the same
`(user_id, collectible_id)` pair makes the insert violate
`uq_user_collectible_once`, so the commit raises `IntegrityError`, the
session is rolled back and HTTP 409 "Already collected" is returned.  The
collectible row itself is never modified or deleted. -/
def collect (db : DB) (collectible_id userId : Nat) : Except Err Int × DB :=
  match db.users.find? (fun u => u.id == userId) with
  | none => (.error .userNotFound, db)
  | some _ =>
    match db.collectibles.find? (fun c => c.id == collectible_id) with
    | none => (.error .collectibleNotFound, db)
    | some c =>
      if db.collections.any
          (fun r => r.user_id == userId && r.collectible_id == collectible_id) then
        (.error .alreadyCollected, db)
      else
        (.ok c.points,
         { db with
            collections := db.collections ++
              [⟨db.tick, userId, collectible_id, c.zone_id, c.points, db.tick⟩],
            tick := db.tick + 1 })

/-- One row of the leaderboard SQL result (before DTO conversion):
`u.id, u.name, u.is_guest, COALESCE(SUM(c.awarded_points),0), u.created_at`. -/
structure LBRow where
  user_id : Nat
  name : String
  is_guest : Bool
  points : Int
  created_at : Nat
deriving DecidableEq, Repr

/-- The `ORDER BY points DESC, u.created_at ASC` relation of the
leaderboard queries (src/main.py:470,487). -/
def lbOrder (a b : LBRow) : Prop :=
  b.points < a.points ∨ (a.points = b.points ∧ a.created_at ≤ b.created_at)

instance : DecidableRel lbOrder := fun a b => by
  unfold lbOrder; exact inferInstance

instance : IsTotal LBRow lbOrder := ⟨by intro a b; unfold lbOrder; omega⟩

instance : IsTrans LBRow lbOrder := ⟨by intro a b c; unfold lbOrder; omega⟩

/-- The zone-scoped grouped rows: every user (the query LEFT JOINs from
`users`), with the sum of their awarded points inside the zone. -/
def lbRows (db : DB) (zid : Nat) : List LBRow :=
  db.users.map (fun u => ⟨u.id, u.name, u.is_guest, zonePoints db u.id zid, u.created_at⟩)

/-- The global grouped rows (`scope=global` branch, src/main.py:459-474). -/
def lbRowsGlobal (db : DB) : List LBRow :=
  db.users.map (fun u => ⟨u.id, u.name, u.is_guest, totalPoints db u.id, u.created_at⟩)

/-- Endpoint `GET /zones/.../leaderboard` (src/main.py:451-501):
`limit = max(1, min(limit, 100))`, `scope = (scope or "zone").lower()`,
group/sum per user, order by points descending (ties by `created_at`
ascending), truncate to the clamped limit. -/
def leaderboard (db : DB) (zone_id : Nat) (limit : Int) (scope : String) :
    List LeaderboardEntry :=
  ((List.insertionSort lbOrder
      (if strLower (if scope == "" then "zone" else scope) == "global" then
        lbRowsGlobal db
      else lbRows db zone_id)).take (max 1 (min limit 100)).toNat).map
    (fun r => ⟨toString r.user_id, r.name, r.is_guest, r.points⟩)

/-! ### Base64 (the `base64` stdlib calls in src/main.py:510,536)

RFC 4648 base64 over byte lists.  `b64decode` is the strict decoder: on
canonically padded base64 it agrees with Python's `base64.b64decode`; a
string it rejects is not valid base64. -/

/-- The base64 alphabet. -/
def b64chars : List Char :=
  "ABCDEFGHIJKLMNOPQRSTUVWXYZabcdefghijklmnopqrstuvwxyz0123456789+/".toList

/-- The character encoding a 6-bit group. -/
def b64ch (n : Nat) : Char := b64chars.getD n 'A'

/-- The 6-bit value of an alphabet character. -/
def b64val (c : Char) : Option Nat :=
  let i := b64chars.findIdx (fun x => x == c)
  if i < 64 then some i else none

/-- Encoder `base64.b64encode`: three bytes into four characters, with `=` padding
for a trailing group of one or two bytes. -/
def b64encode : List Nat → List Char
  | [] => []
  | [a] => [b64ch (a / 4), b64ch (a % 4 * 16), '=', '=']
  | [a, b] => [b64ch (a / 4), b64ch (a % 4 * 16 + b / 16), b64ch (b % 16 * 4), '=']
  | a :: b :: c :: rest =>
    b64ch (a / 4) :: b64ch (a % 4 * 16 + b / 16) :: b64ch (b % 16 * 4 + c / 64) ::
      b64ch (c % 64) :: b64encode rest

/-- Decoder `base64.b64decode` on canonical input: groups of four characters, the
last group optionally padded; as in Python, spare low bits of a padded
group are dropped unchecked. -/
def b64decode : List Char → Option (List Nat)
  | [] => some []
  | c1 :: c2 :: c3 :: c4 :: rest =>
    (b64val c1).bind fun v1 =>
    (b64val c2).bind fun v2 =>
    if c3 = '=' then
      if c4 = '=' ∧ rest = [] then some [v1 * 4 + v2 / 16] else none
    else
      (b64val c3).bind fun v3 =>
      if c4 = '=' then
        if rest = [] then some [v1 * 4 + v2 / 16, v2 % 16 * 16 + v3 / 4] else none
      else
        (b64val c4).bind fun v4 =>
        (b64decode rest).bind fun tail =>
        some ((v1 * 4 + v2 / 16) :: (v2 % 16 * 16 + v3 / 4) ::
              (v3 % 4 * 64 + v4) :: tail)
  | _ => none

/-- Endpoint `POST /zones/.../worldmap` (src/main.py:506-522): decode the
base64 payload (400 when invalid), 404 on an unknown zone, otherwise insert
a new `WorldMap` row with the decoded bytes. -/
def upload_worldmap (db : DB) (zone_id : Nat) (mapBase64 : String) :
    Except Err Bool × DB :=
  match b64decode mapBase64.toList with
  | none => (.error .badBase64, db)
  | some data =>
    match db.zones.find? (fun z => z.id == zone_id) with
    | none => (.error .zoneNotFound, db)
    | some _ =>
      (.ok true,
       { db with
          worldmaps := db.worldmaps ++
            [⟨db.tick, zone_id, "WorldMap " ++ toString db.tick, data, db.tick⟩],
          tick := db.tick + 1 })

/-- Query `ORDER BY created_at DESC ... first()` of `fetch_worldmap`
(src/main.py:528-533): the row with the greatest `created_at` (timestamps
are distinct in this model, so the tie rule is immaterial). -/
def latestWorldmap : List WorldMap → Option WorldMap
  | [] => none
  | w :: ws =>
    match latestWorldmap ws with
    | none => some w
    | some w2 => if w.created_at ≥ w2.created_at then some w else some w2

/-- Endpoint `GET /zones/.../worldmap` (src/main.py:524-536): 404 when the zone
has no worldmap, otherwise the newest blob re-encoded to base64. -/
def fetch_worldmap (db : DB) (zone_id : Nat) : Except Err String :=
  match latestWorldmap (db.worldmaps.filter (fun w => w.zone_id == zone_id)) with
  | none => .error .noWorldmap
  | some wm => .ok (String.mk (b64encode wm.data))

/-! ### Concrete fixtures for witnesses and counterexamples -/

/-- A zone (fixture). -/
def zW : Zone := ⟨100, "Althuraya - Floor 1", none⟩

/-- A registered guest user (fixture). -/
def uW : User := ⟨1, "d1", "Guest", none, true, 0, 0⟩

/-- A second registered guest user (fixture). -/
def uW2 : User := ⟨2, "d2", "Guest", none, true, 1, 1⟩

/-- A collectible worth 5 points in zone 100 (fixture). -/
def cW : Collectible := ⟨3, "GOLD", 5, List.replicate 16 0, 100, none, 2⟩

/-- A small concrete database: two users, one zone, one uncollected
collectible (fixture). -/
def dbW : DB := ⟨[uW, uW2], [zW], [cW], [], [], 10⟩


/-! ### Helper lemmas -/

/-- Decoding inverts the alphabet table. -/
lemma b64val_b64ch : ∀ n < 64, b64val (b64ch n) = some n := by decide

lemma b64ch_ne_pad : ∀ n < 64, b64ch n ≠ '=' := by decide

lemma b64val_lt {c : Char} {v : Nat} (h : b64val c = some v) : v < 64 := by
  simp only [b64val] at h
  split at h
  · simp only [Option.some.injEq] at h; omega
  · simp at h

lemma b64_decode_encode (l : List Nat) (h : ∀ x ∈ l, x < 256) :
    b64decode (b64encode l) = some l := by
  induction l using b64encode.induct with
  | case1 => rfl
  | case2 a =>
    have ha : a < 256 := h a (by simp)
    simp [b64encode, b64decode, b64val_b64ch _ (by omega : a / 4 < 64),
      b64val_b64ch _ (by omega : a % 4 * 16 < 64)]
    omega
  | case3 a b =>
    have ha : a < 256 := h a (by simp)
    have hb : b < 256 := h b (by simp)
    simp [b64encode, b64decode, b64val_b64ch _ (by omega : a / 4 < 64),
      b64val_b64ch _ (by omega : a % 4 * 16 + b / 16 < 64),
      b64val_b64ch _ (by omega : b % 16 * 4 < 64),
      b64ch_ne_pad _ (by omega : b % 16 * 4 < 64)]
    omega
  | case4 a b c rest ih =>
    have ha : a < 256 := h a (by simp)
    have hb : b < 256 := h b (by simp)
    have hc : c < 256 := h c (by simp)
    have hrest : ∀ x ∈ rest, x < 256 := fun x hx => h x (by simp [hx])
    simp [b64encode, b64decode, b64val_b64ch _ (by omega : a / 4 < 64),
      b64val_b64ch _ (by omega : a % 4 * 16 + b / 16 < 64),
      b64val_b64ch _ (by omega : b % 16 * 4 + c / 64 < 64),
      b64val_b64ch _ (by omega : c % 64 < 64),
      b64ch_ne_pad _ (by omega : b % 16 * 4 + c / 64 < 64),
      b64ch_ne_pad _ (by omega : c % 64 < 64), ih hrest]
    omega

lemma b64decode_bytes_lt : ∀ (cs : List Char) (l : List Nat),
    b64decode cs = some l → ∀ x ∈ l, x < 256
  | [], l, h => by
    simp [b64decode] at h
    subst h
    simp
  | [c1], l, h => by simp [b64decode] at h
  | [c1, c2], l, h => by simp [b64decode] at h
  | [c1, c2, c3], l, h => by simp [b64decode] at h
  | c1 :: c2 :: c3 :: c4 :: rest, l, h => by
    intro x hx
    simp only [b64decode] at h
    cases h1 : b64val c1 with
    | none => rw [h1] at h; simp at h
    | some v1 =>
      cases h2 : b64val c2 with
      | none => rw [h1, h2] at h; simp at h
      | some v2 =>
        rw [h1, h2] at h
        simp only [Option.some_bind] at h
        have hv1 := b64val_lt h1
        have hv2 := b64val_lt h2
        by_cases hc3 : c3 = '='
        · rw [if_pos hc3] at h
          by_cases hc4 : c4 = '=' ∧ rest = []
          · rw [if_pos hc4] at h
            simp only [Option.some.injEq] at h
            subst h
            simp at hx
            omega
          · rw [if_neg hc4] at h; simp at h
        · rw [if_neg hc3] at h
          cases h3 : b64val c3 with
          | none => rw [h3] at h; simp at h
          | some v3 =>
            rw [h3] at h
            simp only [Option.some_bind] at h
            have hv3 := b64val_lt h3
            by_cases hc4 : c4 = '='
            · rw [if_pos hc4] at h
              by_cases hrest : rest = []
              · rw [if_pos hrest] at h
                simp only [Option.some.injEq] at h
                subst h
                simp at hx
                omega
              · rw [if_neg hrest] at h; simp at h
            · rw [if_neg hc4] at h
              cases h4 : b64val c4 with
              | none => rw [h4] at h; simp at h
              | some v4 =>
                cases htl : b64decode rest with
                | none => rw [h4, htl] at h; simp at h
                | some tail =>
                  rw [h4, htl] at h
                  simp only [Option.some_bind, Option.some.injEq] at h
                  have hv4 := b64val_lt h4
                  subst h
                  simp at hx
                  rcases hx with hx | hx | hx | hx
                  · omega
                  · omega
                  · omega
                  · exact b64decode_bytes_lt rest tail htl x hx


/-! ### Collect: single-collection semantics (C1, C2, C3) -/

/-- Inversion of a successful `collect`: user and collectible were found, no
prior record of the pair existed, the award equals the collectible's points,
and the new state only appends the collection row. -/
lemma collect_ok_inv (db db1 : DB) (cid uid : Nat) (p : Int)
    (h : collect db cid uid = (.ok p, db1)) :
    ∃ u c, db.users.find? (fun u => u.id == uid) = some u ∧
      db.collectibles.find? (fun c => c.id == cid) = some c ∧
      db.collections.any (fun r => r.user_id == uid && r.collectible_id == cid) = false ∧
      p = c.points ∧
      db1 = { db with
        collections := db.collections ++
          [⟨db.tick, uid, cid, c.zone_id, c.points, db.tick⟩],
        tick := db.tick + 1 } := by
  unfold collect at h
  cases hu : db.users.find? (fun u => u.id == uid) with
  | none => rw [hu] at h; simp at h
  | some u =>
    rw [hu] at h
    cases hc : db.collectibles.find? (fun c => c.id == cid) with
    | none => rw [hc] at h; simp at h
    | some c =>
      rw [hc] at h
      dsimp only at h
      by_cases ha : db.collections.any
          (fun r => r.user_id == uid && r.collectible_id == cid) = true
      · rw [if_pos ha] at h; simp at h
      · rw [if_neg ha] at h
        simp only [Prod.mk.injEq, Except.ok.injEq] at h
        exact ⟨u, c, rfl, rfl, by simpa using ha, h.1.symm, h.2.symm⟩

/-- Evaluation of `collect` when the pair has no prior record. -/
lemma collect_ok_of (db : DB) (cid uid : Nat) (u : User) (c : Collectible)
    (hu : db.users.find? (fun x => x.id == uid) = some u)
    (hc : db.collectibles.find? (fun x => x.id == cid) = some c)
    (ha : db.collections.any (fun r => r.user_id == uid && r.collectible_id == cid) = false) :
    collect db cid uid =
      (.ok c.points,
       { db with
          collections := db.collections ++
            [⟨db.tick, uid, cid, c.zone_id, c.points, db.tick⟩],
          tick := db.tick + 1 }) := by
  unfold collect
  rw [hu, hc]
  dsimp only
  rw [ha]
  simp

/-- Evaluation of `collect` when the pair already has a record: the insert
violates the unique constraint and the handler answers 409. -/
lemma collect_conflict_of (db : DB) (cid uid : Nat) (u : User) (c : Collectible)
    (hu : db.users.find? (fun x => x.id == uid) = some u)
    (hc : db.collectibles.find? (fun x => x.id == cid) = some c)
    (ha : db.collections.any (fun r => r.user_id == uid && r.collectible_id == cid) = true) :
    collect db cid uid = (.error .alreadyCollected, db) := by
  unfold collect
  rw [hu, hc]
  dsimp only
  rw [ha]
  simp

/-- C1: after a successful `collect(U, C)`, exactly one collection record
for the pair `(U, C)` exists; a second `collect(U, C)` reports "already
collected" with HTTP 409 and leaves the state unchanged, so no points are
awarded again: the user's per-zone point totals and all collection records
are untouched by the failed second call. -/
theorem collect_twice_single_record (db db1 : DB) (cid uid : Nat) (p : Int)
    (h : collect db cid uid = (.ok p, db1)) :
    db1.collections.countP (fun r => r.user_id == uid && r.collectible_id == cid) = 1 ∧
    collect db1 cid uid = (.error .alreadyCollected, db1) ∧
    Err.status .alreadyCollected = 409 ∧
    (collect db1 cid uid).2.collections = db1.collections ∧
    (∀ zid, zonePoints (collect db1 cid uid).2 uid zid = zonePoints db1 uid zid) := by
  obtain ⟨u, c, hu, hc, ha, hp, hdb⟩ := collect_ok_inv db db1 cid uid p h
  have hrow : ([(⟨db.tick, uid, cid, c.zone_id, c.points, db.tick⟩ : Collection)].any
      (fun r => r.user_id == uid && r.collectible_id == cid)) = true := by simp
  have hany1 : db1.collections.any
      (fun r => r.user_id == uid && r.collectible_id == cid) = true := by
    rw [hdb]
    show (db.collections ++ _).any _ = true
    rw [List.any_append, ha, hrow]
    rfl
  have hsecond : collect db1 cid uid = (.error .alreadyCollected, db1) :=
    collect_conflict_of db1 cid uid u c (by rw [hdb]; exact hu) (by rw [hdb]; exact hc) hany1
  have hcount : db.collections.countP
      (fun r => r.user_id == uid && r.collectible_id == cid) = 0 := by
    rw [List.countP_eq_zero]
    intro a hmem
    have := List.any_eq_false.mp ha a hmem
    simpa using this
  refine ⟨?_, hsecond, rfl, ?_, ?_⟩
  · rw [hdb]
    show (db.collections ++ _).countP _ = 1
    simp [List.countP_append, hcount]
  · rw [hsecond]
  · intro zid; rw [hsecond]

/-- Witness for C1 at a concrete database: user 1 collects collectible 3
(worth 5 points) in `dbW`; the second call conflicts with 409. -/
theorem collect_twice_single_record_witness :
    collect dbW 3 1 = (.ok 5, (collect dbW 3 1).2) ∧
    ((collect dbW 3 1).2.collections.countP
        (fun r => r.user_id == 1 && r.collectible_id == 3) = 1 ∧
      collect (collect dbW 3 1).2 3 1 = (.error .alreadyCollected, (collect dbW 3 1).2) ∧
      Err.status .alreadyCollected = 409 ∧
      (collect (collect dbW 3 1).2 3 1).2.collections = (collect dbW 3 1).2.collections ∧
      (∀ zid, zonePoints (collect (collect dbW 3 1).2 3 1).2 1 zid =
        zonePoints (collect dbW 3 1).2 1 zid)) :=
  ⟨by decide, collect_twice_single_record dbW (collect dbW 3 1).2 3 1 5 (by decide)⟩

/-- C2 (amended): a successful collect does NOT remove or mark the
collectible — the `collectibles` table and every zone listing are unchanged,
and any other user (with no prior record for it) can still collect it for
the same award; only the same `(user, collectible)` pair is barred. -/
theorem collect_not_consumed (db db1 : DB) (cid uid : Nat) (p : Int)
    (h : collect db cid uid = (.ok p, db1)) :
    db1.collectibles = db.collectibles ∧
    (∀ zid w, list_collectibles db1 zid w = list_collectibles db zid w) ∧
    (∀ uid2 u2, db.users.find? (fun u => u.id == uid2) = some u2 →
      db1.collections.countP
        (fun r => r.user_id == uid2 && r.collectible_id == cid) = 0 →
      (collect db1 cid uid2).1 = .ok p) := by
  obtain ⟨u, c, hu, hc, ha, hp, hdb⟩ := collect_ok_inv db db1 cid uid p h
  have hlc : db1.collectibles = db.collectibles := by rw [hdb]
  refine ⟨hlc, ?_, ?_⟩
  · intro zid w
    unfold list_collectibles
    rw [hlc]
  · intro uid2 u2 hu2 hcnt
    have hany2 : db1.collections.any
        (fun r => r.user_id == uid2 && r.collectible_id == cid) = false := by
      rw [List.any_eq_false]
      intro a hmem
      have := List.countP_eq_zero.mp hcnt a hmem
      simpa using this
    have := collect_ok_of db1 cid uid2 u2 c (by rw [hdb]; exact hu2)
      (by rw [hlc]; exact hc) hany2
    rw [this, hp]

/-- Witness for the amended C2 at a concrete database. -/
theorem collect_not_consumed_witness :
    collect dbW 3 1 = (.ok 5, (collect dbW 3 1).2) ∧
    ((collect dbW 3 1).2.collectibles = dbW.collectibles ∧
      (∀ zid w, list_collectibles (collect dbW 3 1).2 zid w = list_collectibles dbW zid w) ∧
      (∀ uid2 u2, dbW.users.find? (fun u => u.id == uid2) = some u2 →
        (collect dbW 3 1).2.collections.countP
          (fun r => r.user_id == uid2 && r.collectible_id == 3) = 0 →
        (collect (collect dbW 3 1).2 3 uid2).1 = .ok 5)) :=
  ⟨by decide, collect_not_consumed dbW (collect dbW 3 1).2 3 1 5 (by decide)⟩

/-- Counterexample to C2 as stated: in `dbW`, after user 1 successfully
collects collectible 3, the collectible still appears in zone 100's listing
and user 2 can still collect it. -/
theorem collect_consumption_cex :
    (collect dbW 3 1).1 = .ok 5 ∧
    ((list_collectibles (collect dbW 3 1).2 100 none).map (fun d => d.id)).contains "3" = true ∧
    (collect (collect dbW 3 1).2 3 2).1 = .ok 5 := by decide

/-- C3: a single successful `collect(U, C)` on a collectible `C` of zone `Z`
with value `P` returns award `P`, and the points endpoint's zone-scoped
total for `U` in `Z` (the sum of `U`'s `awarded_points` in `Z`) grows by
exactly `P`. -/
theorem collect_awards_exactly (db db1 : DB) (cid uid zid : Nat) (c : Collectible) (p : Int)
    (hc : db.collectibles.find? (fun x => x.id == cid) = some c)
    (hz : c.zone_id = zid)
    (h : collect db cid uid = (.ok p, db1)) :
    p = c.points ∧
    user_points db1 uid zid = .ok (zonePoints db uid zid + c.points) := by
  obtain ⟨u, c2, hu, hc2, ha, hp, hdb⟩ := collect_ok_inv db db1 cid uid p h
  rw [hc] at hc2
  obtain rfl : c = c2 := by simpa using hc2
  subst hz
  have hfu : db1.users.find? (fun x => x.id == uid) = some u := by rw [hdb]; exact hu
  unfold user_points
  rw [hfu]
  refine ⟨hp, ?_⟩
  have hzp : zonePoints db1 uid c.zone_id = zonePoints db uid c.zone_id + c.points := by
    rw [hdb]
    unfold zonePoints
    show ((List.filter _ (db.collections ++ _)).map _).sum = _
    simp [List.filter_append, List.sum_append]
  rw [hzp]

/-- Witness for C3 at a concrete database: collecting the 5-point
collectible raises the zone total from 0 to 5. -/
theorem collect_awards_exactly_witness :
    dbW.collectibles.find? (fun x => x.id == 3) = some cW ∧
    cW.zone_id = 100 ∧
    collect dbW 3 1 = (.ok 5, (collect dbW 3 1).2) ∧
    (5 = cW.points ∧
      user_points (collect dbW 3 1).2 1 100 = .ok (zonePoints dbW 1 100 + cW.points)) :=
  ⟨by decide, by decide, by decide,
    collect_awards_exactly dbW (collect dbW 3 1).2 3 1 100 cW 5 (by decide) (by decide) (by decide)⟩


/-! ### Zone auto-resolution (C4) -/

/-- C4 (amended): `POST /zones/auto` ignores the caller's coordinates,
scans nothing and creates nothing: it always responds with the constant
`zoneId = ""` and `joinCode = "0000"` and leaves the state unchanged. -/
theorem auto_zone_dummy (db : DB) (payload : List (String × Rat)) :
    auto_zone db payload = (⟨"", "0000"⟩, db) := rfl

/-- Counterexample to C4 as stated: with a nonempty zone table and concrete
coordinates, the response's `zoneId` is `""`, which is not the id of any
existing zone, and no zone is created (the state is returned unchanged). -/
theorem auto_zone_cex :
    auto_zone dbW [("lat", (249 : Rat) / 10), ("lng", (467 : Rat) / 10)] = (⟨"", "0000"⟩, dbW) ∧
    dbW.zones.all (fun z => toString z.id != "") = true ∧
    dbW.zones ≠ [] :=
  ⟨rfl, by decide, by decide⟩

/-! ### Registration and claim (C5, C6, C10) -/

/-- C5: registration is idempotent on the device identifier.  If a user with
device id `d` exists, registering returns that user unchanged (same user id,
state untouched); otherwise it appends one fresh guest user named "Guest"
with zero points and returns it; a second registration with the same `d`
returns the same user id and leaves the state unchanged.  (`hfresh` is the
id-freshness invariant of the tick counter.) -/
theorem register_idempotent (db : DB) (d : String)
    (hfresh : ∀ r ∈ db.collections, r.user_id < db.tick) :
    (∀ u, db.users.find? (fun x => x.device_id == d) = some u →
      register db d = (⟨toString u.id, u.name, u.is_guest, 0⟩, db)) ∧
    (db.users.find? (fun x => x.device_id == d) = none →
      ∃ nu : User, nu.device_id = d ∧ nu.is_guest = true ∧ nu.name = "Guest" ∧
        (register db d).2.users = db.users ++ [nu] ∧
        (register db d).1 = ⟨toString nu.id, "Guest", true, 0⟩ ∧
        (∀ zid, zonePoints (register db d).2 nu.id zid = 0)) ∧
    (register (register db d).2 d).1.userId = (register db d).1.userId ∧
    (register (register db d).2 d).2 = (register db d).2 := by
  cases hf : db.users.find? (fun x => x.device_id == d) with
  | some u =>
    have h1 : register db d = (⟨toString u.id, u.name, u.is_guest, 0⟩, db) := by
      unfold register; rw [hf]
    refine ⟨?_, ?_, ?_, ?_⟩
    · intro v hv
      obtain rfl : u = v := by simpa using hv
      exact h1
    · intro hv; simp at hv
    · rw [h1]; dsimp only; rw [h1]
    · rw [h1]; dsimp only; rw [h1]
  | none =>
    have h1 : register db d =
        ((⟨toString db.tick, "Guest", true, 0⟩ : RegisterRes),
         { db with
            users := db.users ++ [⟨db.tick, d, "Guest", none, true, db.tick, db.tick⟩],
            tick := db.tick + 1 }) := by
      unfold register; rw [hf]
    have h2 : register (register db d).2 d =
        ((⟨toString db.tick, "Guest", true, 0⟩ : RegisterRes), (register db d).2) := by
      rw [h1]
      unfold register
      dsimp only
      rw [List.find?_append, hf]
      simp [List.find?]
    refine ⟨?_, ?_, ?_, ?_⟩
    · intro v hv; simp at hv
    · intro _
      refine ⟨⟨db.tick, d, "Guest", none, true, db.tick, db.tick⟩, rfl, rfl, rfl, ?_, ?_, ?_⟩
      · rw [h1]
      · rw [h1]
      · intro zid
        rw [h1]
        unfold zonePoints
        dsimp only
        have hnil : db.collections.filter
            (fun c => c.user_id == db.tick && c.zone_id == zid) = [] := by
          rw [List.filter_eq_nil_iff]
          intro a ha2
          have := hfresh a ha2
          simp only [Bool.and_eq_true, beq_iff_eq, not_and]
          intro h3
          omega
        rw [hnil]
        rfl
    · rw [h2]
      rw [h1]
    · rw [h2]

/-- Witness for C5: registering the unseen device id "d9" against `dbW`. -/
theorem register_idempotent_witness :
    (∀ r ∈ dbW.collections, r.user_id < dbW.tick) ∧
    (dbW.users.find? (fun x => x.device_id == "d9") = none →
      ∃ nu : User, nu.device_id = "d9" ∧ nu.is_guest = true ∧ nu.name = "Guest" ∧
        (register dbW "d9").2.users = dbW.users ++ [nu] ∧
        (register dbW "d9").1 = ⟨toString nu.id, "Guest", true, 0⟩ ∧
        (∀ zid, zonePoints (register dbW "d9").2 nu.id zid = 0)) ∧
    (register (register dbW "d9").2 "d9").1.userId = (register dbW "d9").1.userId ∧
    (register (register dbW "d9").2 "d9").2 = (register dbW "d9").2 := by
  have h := register_idempotent dbW "d9" (by decide)
  exact ⟨by decide, h.2.1, h.2.2.1, h.2.2.2⟩

/-- Lemma: `find?` commutes with a map that preserves the predicate. -/
lemma find?_map_congr {α : Type} (f : α → α) (p : α → Bool)
    (hf : ∀ v, p (f v) = p v) (l : List α) :
    (l.map f).find? p = (l.find? p).map f := by
  induction l with
  | nil => rfl
  | cons a t ih =>
    by_cases hpa : p a = true
    · have h2 : p (f a) = true := by rw [hf]; exact hpa
      rw [List.map_cons, List.find?_cons_of_pos _ h2, List.find?_cons_of_pos _ hpa,
        Option.map_some']
    · have h2 : ¬ p (f a) = true := by rw [hf]; exact hpa
      rw [List.map_cons, List.find?_cons_of_neg _ h2, List.find?_cons_of_neg _ hpa, ih]

/-- C6: claiming an unknown user id fails with NotFound (HTTP 404) and
leaves the state unchanged (no user is created); claiming an existing user
succeeds and overwrites exactly that user's name and email, clears the
guest flag, and creates or deletes nothing. -/
theorem claim_spec (db : DB) (uid : Nat) (n e : String) :
    (db.users.find? (fun u => u.id == uid) = none →
      claim db uid n e = (.error .userNotFound, db) ∧ Err.status .userNotFound = 404) ∧
    (∀ u, db.users.find? (fun u => u.id == uid) = some u →
      (claim db uid n e).1 = .ok () ∧
      (claim db uid n e).2.users.find? (fun v => v.id == uid) =
        some { u with name := n, email := some e, is_guest := false,
                      updated_at := db.tick } ∧
      (claim db uid n e).2.users.length = db.users.length ∧
      (claim db uid n e).2.collections = db.collections ∧
      (claim db uid n e).2.zones = db.zones ∧
      (claim db uid n e).2.collectibles = db.collectibles) := by
  cases hf : db.users.find? (fun u => u.id == uid) with
  | none =>
    refine ⟨fun _ => ⟨?_, rfl⟩, fun v hv => by simp at hv⟩
    unfold claim; rw [hf]
  | some u =>
    have h1 : claim db uid n e =
        (.ok (),
         { db with
            users := db.users.map (fun v =>
              if v.id == uid then
                { v with name := n, email := some e, is_guest := false,
                         updated_at := db.tick }
              else v),
            tick := db.tick + 1 }) := by
      unfold claim; rw [hf]
    refine ⟨fun hv => by simp at hv, ?_⟩
    intro v hv
    obtain rfl : u = v := by simpa using hv
    have hpres : ∀ w : User,
        ((if w.id == uid then
            { w with name := n, email := some e, is_guest := false,
                     updated_at := db.tick }
          else w).id == uid) = (w.id == uid) := by
      intro w
      by_cases hw : w.id == uid
      · rw [if_pos hw]
      · rw [if_neg hw]
    refine ⟨by rw [h1], ?_, by rw [h1]; dsimp only; rw [List.length_map],
      by rw [h1], by rw [h1], by rw [h1]⟩
    rw [h1]
    dsimp only
    rw [find?_map_congr _ _ hpres, hf]
    have : (u.id == uid) = true := by
      have := List.find?_some hf
      simpa using this
    rw [Option.map_some']
    rw [if_pos this]

/-- Witness for C6: claiming user 1 of `dbW`. -/
theorem claim_spec_witness :
    dbW.users.find? (fun u => u.id == 1) = some uW ∧
    ((claim dbW 1 "Ali" "ali@example.com").1 = .ok () ∧
      (claim dbW 1 "Ali" "ali@example.com").2.users.find? (fun v => v.id == 1) =
        some { uW with name := "Ali", email := some "ali@example.com",
                       is_guest := false, updated_at := dbW.tick } ∧
      (claim dbW 1 "Ali" "ali@example.com").2.users.length = dbW.users.length ∧
      (claim dbW 1 "Ali" "ali@example.com").2.collections = dbW.collections ∧
      (claim dbW 1 "Ali" "ali@example.com").2.zones = dbW.zones ∧
      (claim dbW 1 "Ali" "ali@example.com").2.collectibles = dbW.collectibles) :=
  ⟨by decide, (claim_spec dbW 1 "Ali" "ali@example.com").2 uW (by decide)⟩

/-- C10: the registration response always reports `points = 0`, for every
database state and device identifier — in particular also when the returned
user already exists and has accumulated a nonzero point total. -/
theorem register_reports_zero_points (db : DB) (d : String) :
    (register db d).1.points = 0 := by
  unfold register
  cases hf : db.users.find? (fun u => u.device_id == d) with
  | none => rfl
  | some u => rfl


/-! ### Collectible creation (C7) -/

/-- C7 (amended): collectible creation validates only the exact 16-element
matrix length — a request with a matrix of any other length is rejected
with HTTP 400 and nothing is persisted; a request with a 16-element matrix
for an existing zone is persisted under the zone and echoed, whatever its
`type` string is (the category is not validated). -/
theorem create_collectible_spec (db : DB) (zid : Nat) (pl : CollectibleCreate) :
    (pl.matrix.length ≠ 16 →
      create_collectible db zid pl = (.error .badMatrix, db) ∧
      Err.status .badMatrix = 400) ∧
    (pl.matrix.length = 16 →
      ∀ z, db.zones.find? (fun x => x.id == zid) = some z →
        create_collectible db zid pl =
          (.ok ⟨toString db.tick, pl.type, pl.points, pl.matrix, pl.worldMapId⟩,
           { db with
              collectibles := db.collectibles ++
                [⟨db.tick, pl.type, pl.points, pl.matrix, zid, pl.worldMapId, db.tick⟩],
              tick := db.tick + 1 })) := by
  constructor
  · intro hlen
    refine ⟨?_, rfl⟩
    unfold create_collectible
    rw [if_pos hlen]
  · intro hlen z hz
    unfold create_collectible
    rw [if_neg (by simp [hlen])]
    rw [hz]

/-- Witness for the amended C7: a 15-element matrix is rejected; a
16-element one is persisted under zone 100 of `dbW`. -/
theorem create_collectible_spec_witness :
    ((List.replicate 15 (0 : Int)).length ≠ 16 ∧
      create_collectible dbW 100 ⟨"GOLD", 7, List.replicate 15 0, none⟩ =
        (.error .badMatrix, dbW) ∧
      Err.status .badMatrix = 400) ∧
    ((List.replicate 16 (0 : Int)).length = 16 ∧
      dbW.zones.find? (fun x => x.id == 100) = some zW ∧
      create_collectible dbW 100 ⟨"GOLD", 7, List.replicate 16 0, none⟩ =
        (.ok ⟨toString dbW.tick, "GOLD", 7, List.replicate 16 0, none⟩,
         { dbW with
            collectibles := dbW.collectibles ++
              [⟨dbW.tick, "GOLD", 7, List.replicate 16 0, 100, none, dbW.tick⟩],
            tick := dbW.tick + 1 })) :=
  ⟨⟨by decide,
     (create_collectible_spec dbW 100 ⟨"GOLD", 7, List.replicate 15 0, none⟩).1 (by decide)⟩,
   ⟨by decide, by decide,
     (create_collectible_spec dbW 100 ⟨"GOLD", 7, List.replicate 16 0, none⟩).2
       (by decide) zW (by decide)⟩⟩

/-- Counterexample to C7 as stated: the category "PIZZA" is none of the
three labels (UI/UX/GOLD), yet creation succeeds and the collectible is
persisted. -/
theorem create_collectible_category_cex :
    (("PIZZA" : String) ∈ (["UI", "UX", "GOLD"] : List String) → False) ∧
    (create_collectible dbW 100 ⟨"PIZZA", 7, List.replicate 16 0, none⟩).1 =
      .ok ⟨"10", "PIZZA", 7, List.replicate 16 0, none⟩ ∧
    (create_collectible dbW 100 ⟨"PIZZA", 7, List.replicate 16 0, none⟩).2.collectibles.any
      (fun x => x.type == "PIZZA") = true := by
  refine ⟨by decide, by decide, by decide⟩

/-! ### Leaderboard (C8) -/

/-- C8 (amended): every entry of the zone leaderboard carries a user's
per-zone awarded-points sum, the list is sorted by points in descending
order, and its length is capped at the limit clamped into `[1, 100]`
(hence also at the requested limit whenever that limit is at least 1). -/
theorem leaderboard_spec (db : DB) (zid : Nat) (limit : Int) :
    (∀ ent ∈ leaderboard db zid limit "zone",
      ∃ u ∈ db.users, ent.userId = toString u.id ∧ ent.points = zonePoints db u.id zid) ∧
    List.Sorted (fun a b : LeaderboardEntry => b.points ≤ a.points)
      (leaderboard db zid limit "zone") ∧
    (leaderboard db zid limit "zone").length ≤ (max 1 (min limit 100)).toNat ∧
    (1 ≤ limit → ((leaderboard db zid limit "zone").length : Int) ≤ limit) := by
  have heval : leaderboard db zid limit "zone" =
      ((List.insertionSort lbOrder (lbRows db zid)).take (max 1 (min limit 100)).toNat).map
        (fun r => ⟨toString r.user_id, r.name, r.is_guest, r.points⟩) := rfl
  have hlen : (leaderboard db zid limit "zone").length ≤ (max 1 (min limit 100)).toNat := by
    rw [heval, List.length_map, List.length_take]
    omega
  refine ⟨?_, ?_, hlen, ?_⟩
  · intro ent hent
    rw [heval] at hent
    simp only [List.mem_map] at hent
    obtain ⟨r, hr, rfl⟩ := hent
    have hr2 : r ∈ List.insertionSort lbOrder (lbRows db zid) := List.take_subset _ _ hr
    have hr3 : r ∈ lbRows db zid := (List.perm_insertionSort lbOrder _).mem_iff.mp hr2
    unfold lbRows at hr3
    simp only [List.mem_map] at hr3
    obtain ⟨u, hu, rfl⟩ := hr3
    exact ⟨u, hu, rfl, rfl⟩
  · rw [heval]
    have hsorted : List.Sorted lbOrder (List.insertionSort lbOrder (lbRows db zid)) :=
      List.sorted_insertionSort lbOrder _
    have htake : List.Pairwise lbOrder
        ((List.insertionSort lbOrder (lbRows db zid)).take (max 1 (min limit 100)).toNat) :=
      List.Pairwise.sublist (List.take_sublist _ _) hsorted
    show List.Pairwise _ _
    rw [List.pairwise_map]
    refine htake.imp ?_
    intro a b hab
    unfold lbOrder at hab
    dsimp only
    omega
  · intro h1
    have h2 : (max 1 (min limit 100)).toNat ≤ limit.toNat := by omega
    have h3 := le_trans hlen h2
    omega

/-- Witness for the amended C8 on `dbW` with limit 10. -/
theorem leaderboard_spec_witness :
    ((⟨"1", "Guest", true, 0⟩ : LeaderboardEntry) ∈ leaderboard dbW 100 10 "zone" ∧
      ∃ u ∈ dbW.users, ("1" : String) = toString u.id ∧ (0 : Int) = zonePoints dbW u.id 100) ∧
    List.Sorted (fun a b : LeaderboardEntry => b.points ≤ a.points)
      (leaderboard dbW 100 10 "zone") ∧
    (leaderboard dbW 100 10 "zone").length ≤ (max 1 (min (10 : Int) 100)).toNat ∧
    (1 ≤ (10 : Int) ∧ ((leaderboard dbW 100 10 "zone").length : Int) ≤ 10) := by
  have h := leaderboard_spec dbW 100 10
  exact ⟨⟨by decide, h.1 ⟨"1", "Guest", true, 0⟩ (by decide)⟩, h.2.1, h.2.2.1,
    ⟨by decide, h.2.2.2 (by decide)⟩⟩

/-- Counterexample to C8 as stated: with limit 0, the code clamps the limit
up to 1 and returns one entry, so the length is not capped at the requested
limit. -/
theorem leaderboard_limit_cex :
    ¬ ((leaderboard dbW 100 0 "zone").length ≤ 0) := by decide

/-! ### World-map round trip (C9) -/

/-- Appending a strictly newer row makes it the latest. -/
lemma latestWorldmap_append_fresh (l : List WorldMap) (w : WorldMap)
    (h : ∀ x ∈ l, x.created_at < w.created_at) :
    latestWorldmap (l ++ [w]) = some w := by
  induction l with
  | nil => rfl
  | cons a t ih =>
    have ha : a.created_at < w.created_at := h a (by simp)
    have ht : ∀ x ∈ t, x.created_at < w.created_at := fun x hx => h x (by simp [hx])
    rw [List.cons_append]
    unfold latestWorldmap
    rw [ih ht]
    dsimp only
    rw [if_neg (by omega)]

/-- C9: uploading a valid base64 string `B` to a zone and then fetching the
zone's worldmap yields a base64 string that decodes to exactly the bytes
`B` decodes to — the most recently uploaded blob is returned.  (`hfresh` is
the timestamp-freshness invariant of the tick counter.) -/
theorem worldmap_roundtrip (db db2 : DB) (zid : Nat) (B : String) (bs : List Nat)
    (hB : b64decode B.toList = some bs)
    (hfresh : ∀ w ∈ db.worldmaps, w.created_at < db.tick)
    (h : upload_worldmap db zid B = (.ok true, db2)) :
    ∃ R : String, fetch_worldmap db2 zid = .ok R ∧
      b64decode R.toList = some bs ∧
      b64decode R.toList = b64decode B.toList := by
  unfold upload_worldmap at h
  rw [hB] at h
  cases hz : db.zones.find? (fun z => z.id == zid) with
  | none => rw [hz] at h; simp at h
  | some z =>
    rw [hz] at h
    dsimp only at h
    simp only [Prod.mk.injEq] at h
    obtain ⟨-, hdb⟩ := h
    subst hdb
    have hfilter : (db.worldmaps ++
        [(⟨db.tick, zid, "WorldMap " ++ toString db.tick, bs, db.tick⟩ : WorldMap)]).filter
          (fun w => w.zone_id == zid) =
        db.worldmaps.filter (fun w => w.zone_id == zid) ++
        [⟨db.tick, zid, "WorldMap " ++ toString db.tick, bs, db.tick⟩] := by
      rw [List.filter_append]
      simp
    have hlatest : latestWorldmap
        (db.worldmaps.filter (fun w => w.zone_id == zid) ++
          [⟨db.tick, zid, "WorldMap " ++ toString db.tick, bs, db.tick⟩]) =
        some ⟨db.tick, zid, "WorldMap " ++ toString db.tick, bs, db.tick⟩ := by
      apply latestWorldmap_append_fresh
      intro x hx
      exact hfresh x (List.mem_of_mem_filter hx)
    have hbytes : ∀ x ∈ bs, x < 256 := b64decode_bytes_lt B.toList bs hB
    refine ⟨String.mk (b64encode bs), ?_, ?_, ?_⟩
    · unfold fetch_worldmap
      dsimp only
      rw [hfilter, hlatest]
    · show b64decode (b64encode bs) = some bs
      exact b64_decode_encode bs hbytes
    · show b64decode (b64encode bs) = _
      rw [b64_decode_encode bs hbytes, hB]

/-- Witness for C9: uploading "QUJD" (the bytes of "ABC") to zone 100. -/
theorem worldmap_roundtrip_witness :
    b64decode ("QUJD".toList) = some [65, 66, 67] ∧
    (∀ w ∈ dbW.worldmaps, w.created_at < dbW.tick) ∧
    upload_worldmap dbW 100 "QUJD" = (.ok true, (upload_worldmap dbW 100 "QUJD").2) ∧
    (∃ R : String, fetch_worldmap (upload_worldmap dbW 100 "QUJD").2 100 = .ok R ∧
      b64decode R.toList = some [65, 66, 67] ∧
      b64decode R.toList = b64decode ("QUJD".toList)) :=
  ⟨by decide, by decide, by decide,
    worldmap_roundtrip dbW (upload_worldmap dbW 100 "QUJD").2 100 "QUJD" [65, 66, 67]
      (by decide) (by decide) (by decide)⟩

end VR
